import Mathlib

/-!
Shallow embedding of `maptiler-cloud-cli` (`src/maptiler/cloud_cli/base.py`)
and proofs about its upload protocol, the ingest client and URL formation.

Conventions of the embedding:
* machine integers are `Nat`/`Int`;
* HTTP traffic is modelled by explicit response values consumed by the code
  (one response per request the code issues);
* fallible code returns `Except`/`Option`, and a Python exception that the
  function lets escape is an explicit error outcome;
* file contents are abstracted to byte counts, since no claim inspects the
  bytes themselves (headers and ranges depend only on offsets and lengths).
-/

/-! ### upload_to_google_drive (base.py lines 299-332)

The resumable upload loop.  Each loop iteration issues one PUT, so a run is
driven by a list of server responses; the loop state consists of the retry
counter, the `offset` variable and the current `chunk` (both `None` after a
retryable failure, mirroring the Python locals).  A chunk is represented by
its length; its bytes always start at the `offset` the reader was seeked to.
-/

/-- A `Content-Range` request header as built at base.py lines 309-313:
either `bytes {first}-{last}/{total}` (with `last = first + len - 1`, which
Python renders as `first - 1` when the chunk is empty) or `bytes */{total}`. -/
inductive CRHeader
  | range (first : Nat) (last : Int) (total : Nat)
  | star (total : Nat)
  deriving DecidableEq

/-- A server response to one resumable-upload PUT: the HTTP status and, when
present and of the shape `bytes=\d+-(\d+)`, the upper bound parsed from the
`Range` response header (base.py line 319); `none` means the header is absent
or does not match, in which case the Python code crashes on `match.group`. -/
structure GDResponse where
  status : Nat
  rangeUpper : Option Nat
  deriving DecidableEq

/-- The loop locals of `upload_to_google_drive`: `retries`, `offset` and the
current chunk length (`none` models Python `None` for both). -/
structure GDState where
  retries : Nat
  offset : Option Nat
  chunk : Option Nat
  deriving DecidableEq

/-- The `Content-Range` header computed at base.py lines 308-313.  In the
source `offset` is a number whenever `chunk` is bytes (both are set together),
so the `getD 0` default is never exercised on reachable states. -/
def contentRangeHeader (S : Nat) (offset : Option Nat) (chunk : Option Nat) : CRHeader :=
  match chunk with
  | some len => .range (offset.getD 0) ((offset.getD 0 : Int) + (len : Int) - 1) S
  | none => .star S

/-- `requests.Response.raise_for_status` raises exactly for 400 ≤ status < 600. -/
def raisesForStatus (status : Nat) : Bool :=
  decide (400 ≤ status ∧ status < 600)

/-- How a run of the resumable upload ends. -/
inductive GDOutcome
  | success
  | raised (status : Nat)
  | crashMissingRange
  | outOfResponses
  deriving DecidableEq

/-- Result of one loop iteration: either the loop ends, or it continues with a
new state, having slept `slept` seconds if a backoff was taken. -/
inductive GDStep
  | done (o : GDOutcome)
  | next (s : GDState) (slept : Option Nat)
  deriving DecidableEq

/-- One iteration of the `while True` loop of `upload_to_google_drive`
(base.py lines 314-332), after the PUT for state `s` got response `r`.
`S` is the file size, `cs` the chunk size.
* 200/201 → return.
* 308 → `retries = 0`; parse the `Range` header (crash if it does not match);
  `offset = upper + 1`; `fp.seek(offset)`; `chunk = fp.read(cs)`, which yields
  `min cs (S - offset)` bytes.
* 403 or ≥ 500 → if `retries > 5`, `raise_for_status()` (which raises for
  status < 600; otherwise execution falls through); then sleep `2 ** retries`,
  increment `retries`, and clear `offset` and `chunk`.
* anything else → `raise_for_status()`; when that does not raise (status
  < 400) the loop continues with the state unchanged. -/
def GD.step (S cs : Nat) (s : GDState) (r : GDResponse) : GDStep :=
  if r.status = 200 ∨ r.status = 201 then
    .done .success
  else if r.status = 308 then
    match r.rangeUpper with
    | none => .done .crashMissingRange
    | some u => .next ⟨0, some (u + 1), some (min cs (S - (u + 1)))⟩ none
  else if r.status = 403 ∨ 500 ≤ r.status then
    if 5 < s.retries ∧ raisesForStatus r.status then
      .done (.raised r.status)
    else
      .next ⟨s.retries + 1, none, none⟩ (some (2 ^ s.retries))
  else if raisesForStatus r.status then
    .done (.raised r.status)
  else
    .next s none

/-- The observable record of one PUT: the loop state it was issued from, the
`Content-Range` header it carried, the response it received, and the backoff
sleep that response triggered (if any). -/
structure PutEvent where
  retriesBefore : Nat
  offset : Option Nat
  chunk : Option Nat
  header : CRHeader
  resp : GDResponse
  slept : Option Nat
  deriving DecidableEq

/-- Run the upload loop from state `s`, consuming one response per PUT;
returns the trace of PUTs and the outcome (`outOfResponses` when the script
of responses is exhausted with the loop still running). -/
def GD.run (S cs : Nat) (s : GDState) : List GDResponse → List PutEvent × GDOutcome
  | [] => ([], .outOfResponses)
  | r :: rs =>
    match GD.step S cs s r with
    | .done o =>
      ([⟨s.retries, s.offset, s.chunk, contentRangeHeader S s.offset s.chunk, r, none⟩], o)
    | .next s' sl =>
      let p := GD.run S cs s' rs
      (⟨s.retries, s.offset, s.chunk, contentRangeHeader S s.offset s.chunk, r, sl⟩ :: p.1, p.2)

/-- The state at base.py lines 304-306: `retries = 0`, `offset = 0`,
`chunk = fp.read(chunk_size)` (i.e. `min cs S` bytes read at position 0). -/
def initGD (S cs : Nat) : GDState :=
  ⟨0, some 0, some (min cs S)⟩

/-- `upload_to_google_drive` for a file of `S` bytes: the loop run from the
initial state with the source's fixed 10 MiB chunk size (base.py line 302). -/
def upload_to_google_drive (S : Nat) (rs : List GDResponse) : List PutEvent × GDOutcome :=
  GD.run S (10 * 1024 * 1024) (initGD S (10 * 1024 * 1024)) rs

/-- The sequence of backoff sleeps recorded in a trace. -/
def sleepsOf (t : List PutEvent) : List Nat :=
  t.filterMap PutEvent.slept

/-- C1: on an HTTP 308 whose `Range` response header reports a confirmed range
ending at byte `u`, the loop resets the retry counter to 0 (whatever its prior
value), sets `offset = u + 1`, seeks the reader there and reads the next chunk
from that position, so the next PUT's `Content-Range` starts at byte `u + 1`. -/
theorem gd_resume_on_308 (S cs : Nat) (s : GDState) (r : GDResponse) (u : Nat)
    (h308 : r.status = 308) (hu : r.rangeUpper = some u) :
    GD.step S cs s r = .next ⟨0, some (u + 1), some (min cs (S - (u + 1)))⟩ none ∧
    contentRangeHeader S (some (u + 1)) (some (min cs (S - (u + 1)))) =
      .range (u + 1) (((u + 1 : Nat) : Int) + ((min cs (S - (u + 1)) : Nat) : Int) - 1) S := by
  constructor
  · simp [GD.step, h308, hu]
  · rfl

/-- Witness for C1: a concrete 308 at retry count 7 with confirmed upper bound
0 moves to offset 1, chunk of `min 2 (3 - 1) = 2` bytes, retries 0. -/
theorem gd_resume_on_308_witness :
    GD.step 3 2 ⟨7, some 0, some 2⟩ ⟨308, some 0⟩ = .next ⟨0, some 1, some 2⟩ none := by
  have h := gd_resume_on_308 3 2 ⟨7, some 0, some 2⟩ ⟨308, some 0⟩ 0 rfl rfl
  simpa using h.1

/-- Helper: a retryable failure (403 or ≥ 500) with the retry budget not yet
exhausted sleeps `2 ^ retries` seconds, increments the counter, and clears
both `offset` and `chunk` (base.py lines 323-330). -/
theorem gd_step_retryable (S cs k : Nat) (o c : Option Nat) (r : GDResponse)
    (hr : r.status = 403 ∨ 500 ≤ r.status) (hk : k ≤ 5) :
    GD.step S cs ⟨k, o, c⟩ r = .next ⟨k + 1, none, none⟩ (some (2 ^ k)) := by
  have h1 : ¬(r.status = 200 ∨ r.status = 201) := by rcases hr with h | h <;> omega
  have h2 : r.status ≠ 308 := by rcases hr with h | h <;> omega
  have h3 : ¬(5 < (⟨k, o, c⟩ : GDState).retries ∧ raisesForStatus r.status) := by
    intro hcontra
    have hk5 : 5 < k := hcontra.1
    omega
  simp [GD.step, h1, h2, hr, h3]

/-- Helper: a retryable failure once `retries > 5` raises (for a status in the
400-599 raise range of `raise_for_status`). -/
theorem gd_step_exhausted (S cs k : Nat) (o c : Option Nat) (r : GDResponse)
    (hr : r.status = 403 ∨ 500 ≤ r.status) (hraise : raisesForStatus r.status = true)
    (hk : 5 < k) :
    GD.step S cs ⟨k, o, c⟩ r = .done (.raised r.status) := by
  have h1 : ¬(r.status = 200 ∨ r.status = 201) := by rcases hr with h | h <;> omega
  have h2 : r.status ≠ 308 := by rcases hr with h | h <;> omega
  simp [GD.step, h1, h2, hr, hraise, hk]

/-- C2, counterexample: after a 403 the client does not re-send the same chunk
from the last confirmed offset.  For a 3-byte file whose first PUT (range
`bytes 0-2/3`) gets a 403, the second PUT carries no bytes and the probe
header `bytes */3`, not the re-read chunk header `bytes 0-2/3`. -/
theorem gd_retry_probe_counterexample :
    (GD.run 3 4 (initGD 3 4) [⟨403, none⟩, ⟨500, none⟩]).1 =
      [⟨0, some 0, some 3, .range 0 2 3, ⟨403, none⟩, some 1⟩,
       ⟨1, none, none, .star 3, ⟨500, none⟩, some 2⟩] ∧
    (CRHeader.star 3 ≠ CRHeader.range 0 2 3) := by
  constructor
  · decide
  · decide

/-- C2 (amended): on a retryable failure (HTTP 403 or ≥ 500) with at most 5
prior attempts, the client sleeps `2 ^ retries` seconds and retries with a
zero-length probe — `offset` and `chunk` are cleared, so the next PUT carries
the header `bytes */{totalSize}` and no body; the confirmed offset is then
re-learned from the server's next 308 response rather than re-sent blindly. -/
theorem gd_retry_sends_probe (S cs : Nat) (s : GDState) (r : GDResponse)
    (hr : r.status = 403 ∨ 500 ≤ r.status) (hk : s.retries ≤ 5) :
    GD.step S cs s r = .next ⟨s.retries + 1, none, none⟩ (some (2 ^ s.retries)) ∧
    contentRangeHeader S none none = .star S := by
  refine ⟨?_, rfl⟩
  obtain ⟨k, o, c⟩ := s
  exact gd_step_retryable S cs k o c r hr hk

/-- Witness for C2's amended theorem at a concrete state and response. -/
theorem gd_retry_sends_probe_witness :
    GD.step 3 4 ⟨2, some 0, some 3⟩ ⟨500, none⟩ = .next ⟨3, none, none⟩ (some 4) ∧
    contentRangeHeader 3 none none = .star 3 := by
  have h := gd_retry_sends_probe 3 4 ⟨2, some 0, some 3⟩ ⟨500, none⟩
    (Or.inr (by decide)) (by decide)
  simpa using h

/-- Helper: `m` consecutive retryable failures starting at retry counter `k`
(with `k + m ≤ 6`, so the budget is never exhausted) sleep exactly
`2 ^ k, 2 ^ (k+1), …, 2 ^ (k+m-1)` seconds. -/
theorem gd_sleeps_of_failures (S cs : Nat) (r : GDResponse)
    (hr : r.status = 403 ∨ 500 ≤ r.status) :
    ∀ (m k : Nat) (o c : Option Nat), k + m ≤ 6 →
      sleepsOf (GD.run S cs ⟨k, o, c⟩ (List.replicate m r)).1
        = (List.range' k m).map (fun j => 2 ^ j) := by
  intro m
  induction m with
  | zero =>
    intro k o c _
    simp [GD.run, sleepsOf]
  | succ m ih =>
    intro k o c hk
    rw [List.replicate_succ]
    have hstep := gd_step_retryable S cs k o c r hr (by omega)
    simp only [GD.run, hstep, sleepsOf, List.filterMap_cons]
    rw [List.range'_succ]
    simpa [sleepsOf] using ih (k + 1) none none (by omega)

/-- C3, counterexample: the first backoff delay is `2 ^ 0 = 1` second, not the
`base * 2 ^ n = 1 * 2 ^ 1 = 2` seconds the claim's formula gives for the first
(`n = 1`) consecutive retryable failure. -/
theorem gd_backoff_counterexample :
    sleepsOf (GD.run 3 4 (initGD 3 4) [⟨500, none⟩]).1 = [1] ∧ (1 : Nat) ≠ 1 * 2 ^ 1 := by
  constructor
  · decide
  · decide

/-- C3 (amended): under `n` consecutive retryable failures with no progress
the delays are `base * 2 ^ 0, …, base * 2 ^ (n-1)` seconds with `base = 1` (so
the `n`-th delay is `2 ^ (n-1)`, i.e. `delay = base * 2 ^ attemptCount` with
the counter starting at 0); and on the 7th consecutive failure — once the
attempt counter exceeds the maximum of 5 — the upload raises instead of
retrying, having slept only for the 6 allowed retries. -/
theorem gd_backoff (S cs : Nat) (r : GDResponse)
    (hr : r.status = 403 ∨ 500 ≤ r.status) (hraise : raisesForStatus r.status = true) :
    (∀ n, n ≤ 6 → sleepsOf (GD.run S cs (initGD S cs) (List.replicate n r)).1
        = (List.range n).map (fun k => 2 ^ k)) ∧
    (GD.run S cs (initGD S cs) (List.replicate 7 r)).2 = .raised r.status ∧
    sleepsOf (GD.run S cs (initGD S cs) (List.replicate 7 r)).1
        = (List.range 6).map (fun k => 2 ^ k) := by
  have hrun7 : GD.run S cs (initGD S cs) (List.replicate 7 r)
      = (⟨0, some 0, some (min cs S), .range 0 ((min cs S : Nat) - 1 : Int) S, r, some 1⟩ ::
         ⟨1, none, none, .star S, r, some 2⟩ ::
         ⟨2, none, none, .star S, r, some 4⟩ ::
         ⟨3, none, none, .star S, r, some 8⟩ ::
         ⟨4, none, none, .star S, r, some 16⟩ ::
         ⟨5, none, none, .star S, r, some 32⟩ ::
         [⟨6, none, none, .star S, r, none⟩], .raised r.status) := by
    have hrep : List.replicate 7 r = [r, r, r, r, r, r, r] := rfl
    rw [hrep]
    simp only [GD.run, initGD,
      gd_step_retryable S cs 0 (some 0) (some (min cs S)) r hr (by omega),
      gd_step_retryable S cs 1 none none r hr (by omega),
      gd_step_retryable S cs 2 none none r hr (by omega),
      gd_step_retryable S cs 3 none none r hr (by omega),
      gd_step_retryable S cs 4 none none r hr (by omega),
      gd_step_retryable S cs 5 none none r hr (by omega),
      gd_step_exhausted S cs 6 none none r hr hraise (by omega)]
    simp [contentRangeHeader]
  refine ⟨?_, ?_, ?_⟩
  · intro n hn
    have h := gd_sleeps_of_failures S cs r hr n 0 (some 0) (some (min cs S)) (by omega)
    rw [initGD, h, List.range_eq_range']
  · rw [hrun7]
  · rw [hrun7]
    simp [sleepsOf]
    decide

/-- Witness for C3's amended theorem: two consecutive 500s sleep 1 then 2
seconds, and seven consecutive 500s raise status 500. -/
theorem gd_backoff_witness :
    sleepsOf (GD.run 3 4 (initGD 3 4) (List.replicate 2 ⟨500, none⟩)).1 = [1, 2] ∧
    (GD.run 3 4 (initGD 3 4) (List.replicate 7 ⟨500, none⟩)).2 = .raised 500 := by
  have h := gd_backoff 3 4 ⟨500, none⟩ (Or.inr (by decide)) (by decide)
  exact ⟨by simpa using h.1 2 (by decide), by simpa using h.2.1⟩

/-- C4, counterexample: for a file whose size is an exact multiple of the
10 MiB chunk size, when the server's response to the last real chunk is a 308
confirming all bytes, the final zero-length PUT does **not** carry
`bytes */{totalSize}`: the empty chunk read at end of file is `b""` (not
`None`), so the header is the degenerate `bytes 10485760-10485759/10485760`. -/
theorem gd_zero_tail_counterexample :
    (upload_to_google_drive 10485760 [⟨308, some 10485759⟩, ⟨200, none⟩]).1 =
      [⟨0, some 0, some 10485760, .range 0 10485759 10485760, ⟨308, some 10485759⟩, none⟩,
       ⟨0, some 10485760, some 0, .range 10485760 10485759 10485760, ⟨200, none⟩, none⟩] ∧
    (upload_to_google_drive 10485760 [⟨308, some 10485759⟩, ⟨200, none⟩]).2
      = .success ∧
    CRHeader.range 10485760 10485759 10485760 ≠ CRHeader.star 10485760 := by
  refine ⟨by decide, by decide, by decide⟩

/-- Helper: the first event of a non-empty run records the state it was
issued from. -/
theorem gd_run_head (S cs : Nat) (s : GDState) (rs : List GDResponse) :
    ∀ e, (GD.run S cs s rs).1.head? = some e →
      e.chunk = s.chunk ∧ e.offset = s.offset ∧
      e.header = contentRangeHeader S s.offset s.chunk := by
  cases rs with
  | nil => intro e he; simp [GD.run] at he
  | cons r rs =>
    intro e he
    cases hstep : GD.step S cs s r with
    | done o =>
      simp [GD.run, hstep] at he
      simp [← he]
    | next s' sl =>
      simp [GD.run, hstep] at he
      simp [← he]

/-- Helper: if one loop iteration continues with a cleared chunk, either the
response was retryable (403/≥500), or the chunk was already cleared (the
unhandled-status branch keeps the state unchanged). -/
theorem gd_step_chunk_none (S cs : Nat) (s : GDState) (r : GDResponse)
    (s' : GDState) (sl : Option Nat)
    (h : GD.step S cs s r = .next s' sl) (hc : s'.chunk = none) :
    r.status = 403 ∨ 500 ≤ r.status ∨ s.chunk = none := by
  rcases Decidable.em (r.status = 403 ∨ 500 ≤ r.status) with hret | hret
  · exact hret.elim Or.inl (fun h5 => Or.inr (Or.inl h5))
  · refine Or.inr (Or.inr ?_)
    unfold GD.step at h
    rw [if_neg hret] at h
    split at h
    · simp at h
    · split at h
      · split at h
        · simp at h
        · injection h with h1 h2
          rw [← h1] at hc
          simp at hc
      · split at h
        · simp at h
        · injection h with h1 h2
          rw [← h1] at hc
          exact hc

/-- Helper: every recorded PUT's header is the `Content-Range` computed from
the offset and chunk it was issued with. -/
theorem gd_event_header (S cs : Nat) (s : GDState) (rs : List GDResponse) :
    ∀ e ∈ (GD.run S cs s rs).1,
      e.header = contentRangeHeader S e.offset e.chunk := by
  induction rs generalizing s with
  | nil => simp [GD.run]
  | cons r rs ih =>
    intro e he
    cases hstep : GD.step S cs s r with
    | done o =>
      simp [GD.run, hstep] at he
      subst he
      rfl
    | next s' sl =>
      simp [GD.run, hstep] at he
      rcases he with he | he
      · subst he; rfl
      · exact ih s' e he

/-- C4 (amended): every PUT whose chunk is bytes of length `len` read at
offset `o` carries `bytes {o}-{o+len-1}/{S}` — including the degenerate
empty-chunk form `bytes {o}-{o-1}/{S}` that arises when the file size is an
exact multiple of the chunk size and the server 308-confirmed the last real
chunk — while `bytes */{S}` is carried exactly by the PUTs whose chunk is
`None`; a `None` chunk only ever arises from the retryable-failure branch
(and can persist only through responses the loop leaves unhandled, which keep
the state unchanged), never from running out of file bytes. -/
theorem gd_header_shapes (S cs : Nat) (s : GDState) (rs : List GDResponse) :
    (∀ e ∈ (GD.run S cs s rs).1,
        (∀ len, e.chunk = some len →
          e.header = .range (e.offset.getD 0)
            (((e.offset.getD 0 : Nat) : Int) + ((len : Nat) : Int) - 1) S) ∧
        (e.chunk = none → e.header = .star S)) ∧
    List.Chain' (fun e e2 => e2.chunk = none →
        (e.resp.status = 403 ∨ 500 ≤ e.resp.status ∨ e.chunk = none))
      (GD.run S cs s rs).1 ∧
    (∀ e, (GD.run S cs s rs).1.head? = some e → e.chunk = s.chunk) := by
  refine ⟨?_, ?_, ?_⟩
  · intro e he
    have hh := gd_event_header S cs s rs e he
    constructor
    · intro len hlen
      rw [hh, hlen]
      rfl
    · intro hnone
      rw [hh, hnone]
      rfl
  · induction rs generalizing s with
    | nil => simp [GD.run]
    | cons r rs ih =>
      cases hstep : GD.step S cs s r with
      | done o => simp [GD.run, hstep]
      | next s' sl =>
        simp only [GD.run, hstep]
        rw [List.chain'_cons']
        refine ⟨?_, ih s'⟩
        intro e2 he2 hcnone
        have hc2 := gd_run_head S cs s' rs e2 (Option.mem_def.mp he2)
        have hs' : s'.chunk = none := by rw [← hc2.1]; exact hcnone
        have hdisj := gd_step_chunk_none S cs s r s' sl hstep hs'
        simpa using hdisj
  · intro e he
    exact (gd_run_head S cs s rs e he).1

/-- Witness for C4's amended theorem: in a concrete run the probe PUT after a
403 has a `None` chunk and, by the theorem, carries `bytes */3`. -/
theorem gd_header_shapes_witness :
    (⟨1, none, none, .star 3, ⟨500, none⟩, some 2⟩ : PutEvent)
        ∈ (GD.run 3 4 (initGD 3 4) [⟨403, none⟩, ⟨500, none⟩]).1 ∧
    (⟨1, none, none, .star 3, ⟨500, none⟩, some 2⟩ : PutEvent).header = .star 3 := by
  refine ⟨by decide, ?_⟩
  exact ((gd_header_shapes 3 4 (initGD 3 4) [⟨403, none⟩, ⟨500, none⟩]).1
    ⟨1, none, none, .star 3, ⟨500, none⟩, some 2⟩ (by decide)).2 rfl

/-! ### upload_to_s3 (base.py lines 254-296)

The multipart upload.  The network is abstracted as one response per part
(`S3PutResponse`); file contents are abstracted to byte counts.  Python's
`sorted` (a stable sort by `part_id`) is modelled by Mathlib's stable
`List.insertionSort`, which computes the same list as any stable sort under
the same key.
-/

/-- `S3UploadPart` dataclass (base.py lines 27-29). -/
structure S3UploadPart where
  part_id : Nat
  url : String
  deriving DecidableEq

/-- `S3Upload` dataclass (base.py lines 32-35). -/
structure S3Upload where
  part_size : Nat
  parts : List S3UploadPart
  deriving DecidableEq

/-- `S3UploadResultPart` dataclass (base.py lines 38-41). -/
structure S3UploadResultPart where
  part_id : Nat
  etag : String
  deriving DecidableEq

/-- `S3UploadResult` dataclass (base.py lines 44-46). -/
structure S3UploadResult where
  parts : List S3UploadResultPart
  deriving DecidableEq

/-- A destination's response to one part PUT: status and `ETag` header (read
by the source only when status < 400, and modelled as always present). -/
structure S3PutResponse where
  status : Nat
  etag : String
  deriving DecidableEq

/-- Part's lower byte bound, base.py line 277: `(part_id - 1) * part_size`. -/
def partLower (part_size part_id : Nat) : Nat :=
  (part_id - 1) * part_size

/-- Part's upper byte bound, base.py line 278:
`min (lower + part_size) file_size`. -/
def partUpper (part_size file_size part_id : Nat) : Nat :=
  min (partLower part_size part_id + part_size) file_size

/-- The fixed 8 MiB read buffer of base.py line 262. -/
def bufSize : Nat := 8 * 1024 * 1024

/-- The `read` generator of base.py lines 264-273, abstracted over the number
of bytes still available from the file handle's position (`avail`).  Each
iteration picks a target of at most `bufSize` bytes (at most `length`),
`readinto` fills it with `min target avail` bytes, that count is yielded, and
`length` decreases by the bytes actually read — 0 once the file is exhausted.
`fuel` bounds the unrolling; the Bool reports whether the `while length > 0`
loop exited within that fuel. -/
def readChunks (fuel avail length : Nat) : List Nat × Bool :=
  match fuel with
  | 0 => ([], false)
  | fuel + 1 =>
    if length = 0 then ([], true)
    else
      let target := if bufSize ≤ length then bufSize else length
      let numRead := min target avail
      let rest := readChunks fuel (avail - numRead) (length - numRead)
      (numRead :: rest.1, rest.2)

/-- Sorting of the plan's parts, base.py line 276:
`sorted(upload.parts, key=attrgetter("part_id"))` (stable). -/
def sortedParts (parts : List S3UploadPart) : List S3UploadPart :=
  parts.insertionSort (fun a b => a.part_id ≤ b.part_id)

/-- The part loop of base.py lines 276-294: PUT each part in ascending
`part_id` order; the first response with status ≥ 400 raises `RuntimeError`
(line 290), otherwise `(part_id, ETag)` is appended to the results. -/
def putParts (resp : S3UploadPart → S3PutResponse) :
    List S3UploadPart → Except Nat (List S3UploadResultPart)
  | [] => .ok []
  | p :: ps =>
    let r := resp p
    if 400 ≤ r.status then
      .error r.status
    else
      match putParts resp ps with
      | .ok rest => .ok (⟨p.part_id, r.etag⟩ :: rest)
      | .error e => .error e

/-- `upload_to_s3` (base.py lines 254-296), the network abstracted as a
response per part. -/
def upload_to_s3 (resp : S3UploadPart → S3PutResponse) (upload : S3Upload) :
    Except Nat S3UploadResult :=
  match putParts resp (sortedParts upload.parts) with
  | .ok parts => .ok ⟨parts⟩
  | .error e => .error e

/-- `ceil(S / P)`: the number of parts of the claim's contiguous 1-based plan. -/
def numParts (file_size part_size : Nat) : Nat :=
  (file_size + part_size - 1) / part_size

/-- Helper: `S ≤ ceil(S/P) * P`. -/
theorem numParts_mul_ge (S P : Nat) (hP : 0 < P) : S ≤ numParts S P * P := by
  have hdm := Nat.div_add_mod (S + P - 1) P
  have hmod : (S + P - 1) % P < P := Nat.mod_lt _ hP
  have hc : P * ((S + P - 1) / P) = ((S + P - 1) / P) * P := Nat.mul_comm _ _
  unfold numParts
  omega

/-- Helper: below the last part index, whole parts fit strictly inside the
file: `i < ceil(S/P) → i * P < S`. -/
theorem lt_numParts_mul_lt (S P i : Nat) (hP : 0 < P) (hi : i < numParts S P) :
    i * P < S := by
  have h1 : i + 1 ≤ (S + P - 1) / P := hi
  have h2 : (i + 1) * P ≤ S + P - 1 := (Nat.le_div_iff_mul_le hP).mp h1
  have h3 : (i + 1) * P = i * P + P := Nat.succ_mul i P
  omega

/-- C5: for every file size `S` and part size `P > 0`, part `i`'s byte range
is `[(i-1)*P, min (i*P) S)`, and over the contiguous 1-based part ids
`1..ceil(S/P)` these ranges exactly tile `[0, S)`: the first starts at 0, each
part's upper bound is the next part's lower bound, every part is non-empty,
and the last part ends at `S`. -/
theorem s3_ranges_tile (S P : Nat) (hP : 0 < P) :
    (∀ i, 1 ≤ i → partLower P i = (i - 1) * P ∧ partUpper P S i = min (i * P) S) ∧
    partLower P 1 = 0 ∧
    (∀ i, 1 ≤ i → i < numParts S P → partUpper P S i = partLower P (i + 1)) ∧
    (∀ i, 1 ≤ i → i ≤ numParts S P → partLower P i < partUpper P S i) ∧
    (1 ≤ numParts S P → partUpper P S (numParts S P) = S) := by
  have key : ∀ i, 1 ≤ i → partUpper P S i = min (i * P) S := by
    intro i hi
    rcases i with _ | j
    · omega
    · simp [partUpper, partLower, Nat.succ_sub_one, Nat.succ_mul]
  refine ⟨?_, ?_, ?_, ?_, ?_⟩
  · intro i hi
    exact ⟨rfl, key i hi⟩
  · simp [partLower]
  · intro i hi hin
    rw [key i hi]
    simp only [partLower, Nat.add_sub_cancel]
    exact min_eq_left (Nat.le_of_lt (lt_numParts_mul_lt S P i hP hin))
  · intro i hi hin
    rcases i with _ | j
    · omega
    · have hlt : j * P < S := lt_numParts_mul_lt S P j hP (by omega)
      rw [key (j + 1) hi]
      simp only [partLower, Nat.succ_sub_one]
      refine lt_min ?_ hlt
      have hsm : (j + 1) * P = j * P + P := by ring
      omega
  · intro hn
    rw [key (numParts S P) hn]
    exact min_eq_right (numParts_mul_ge S P hP)

/-- Witness for C5 at `S = 25`, `P = 10` (3 parts): the last part ends at 25
and part 2's upper bound is part 3's lower bound. -/
theorem s3_ranges_tile_witness :
    partUpper 10 25 (numParts 25 10) = 25 ∧ partUpper 10 25 2 = partLower 10 3 := by
  have h := s3_ranges_tile 25 10 (by decide)
  exact ⟨h.2.2.2.2 (by decide), h.2.2.1 2 (by decide) (by decide)⟩

/-- Helper: when every part's PUT succeeds (status < 400), the part loop
returns one `(part_id, ETag)` record per part, in traversal order. -/
theorem putParts_ok (resp : S3UploadPart → S3PutResponse) :
    ∀ ps : List S3UploadPart, (∀ p ∈ ps, (resp p).status < 400) →
      putParts resp ps = .ok (ps.map (fun p => ⟨p.part_id, (resp p).etag⟩)) := by
  intro ps
  induction ps with
  | nil => intro _; rfl
  | cons p ps ih =>
    intro h
    have hp : (resp p).status < 400 := h p (by simp)
    have hps := ih (fun q hq => h q (by simp [hq]))
    simp [putParts, hps, Nat.not_le.mpr hp]

/-- C6: when every part PUT succeeds, `upload_to_s3` returns exactly one
entry per part of the plan, listed in ascending `part_id` order, each carrying
that part's `ETag` response header verbatim. -/
theorem s3_result_per_part (resp : S3UploadPart → S3PutResponse) (upload : S3Upload)
    (hok : ∀ p ∈ upload.parts, (resp p).status < 400) :
    upload_to_s3 resp upload =
      .ok ⟨(sortedParts upload.parts).map (fun p => ⟨p.part_id, (resp p).etag⟩)⟩ ∧
    ((sortedParts upload.parts).map
        (fun p => (⟨p.part_id, (resp p).etag⟩ : S3UploadResultPart))).Pairwise
      (fun a b => a.part_id ≤ b.part_id) ∧
    List.Perm
      (((sortedParts upload.parts).map
          (fun p => (⟨p.part_id, (resp p).etag⟩ : S3UploadResultPart))).map
        S3UploadResultPart.part_id)
      (upload.parts.map S3UploadPart.part_id) := by
  refine ⟨?_, ?_, ?_⟩
  · have hall : ∀ p ∈ sortedParts upload.parts, (resp p).status < 400 := by
      intro p hp
      exact hok p ((List.mem_insertionSort _).mp hp)
    rw [upload_to_s3, putParts_ok resp _ hall]
  · have hsorted := @List.sorted_insertionSort S3UploadPart
      (fun a b => a.part_id ≤ b.part_id) (fun a b => Nat.decLe _ _)
      ⟨fun a b => Nat.le_total _ _⟩ ⟨fun a b c => Nat.le_trans⟩ upload.parts
    rw [List.pairwise_map]
    exact hsorted
  · rw [List.map_map]
    have hperm := List.perm_insertionSort
      (fun a b : S3UploadPart => a.part_id ≤ b.part_id) upload.parts
    exact hperm.map S3UploadPart.part_id

/-- Witness for C6: a two-part plan given out of order comes back as one
entry per part, sorted by `part_id`, with each PUT's ETag. -/
theorem s3_result_per_part_witness :
    upload_to_s3 (fun p => ⟨200, p.url⟩) ⟨5, [⟨2, "eb"⟩, ⟨1, "ea"⟩]⟩ =
      .ok ⟨[⟨1, "ea"⟩, ⟨2, "eb"⟩]⟩ := by
  have h := s3_result_per_part (fun p => ⟨200, p.url⟩) ⟨5, [⟨2, "eb"⟩, ⟨1, "ea"⟩]⟩
    (fun p hp => (by decide : (200 : Nat) < 400))
  rw [h.1]
  rfl

/-- C7 (code evidence): if the file has shrunk so that fewer bytes are
available than the requested length — here 0 bytes available, 1 requested —
the `read` generator does not raise `IOError`: `readinto` returns 0, `length`
never decreases, and the `while length > 0` loop never terminates, whatever
fuel it is given.  The claim's bound does hold: no yielded read ever exceeds
the fixed 8 MiB buffer. -/
theorem read_shrunk_spins :
    (∀ fuel, (readChunks fuel 0 1).2 = false) ∧
    (∀ fuel avail length,
      ((readChunks fuel avail length).1.all (fun n => decide (n ≤ bufSize))) = true) := by
  constructor
  · intro fuel
    induction fuel with
    | zero => rfl
    | succ fuel ih => simpa [readChunks, bufSize] using ih
  · intro fuel
    induction fuel with
    | zero => intro avail length; rfl
    | succ fuel ih =>
      intro avail length
      by_cases h0 : length = 0
      · simp [readChunks, h0]
      · have htar : (if bufSize ≤ length then bufSize else length) ≤ bufSize := by
          split <;> omega
        simp only [readChunks, if_neg h0, List.all_cons, Bool.and_eq_true,
          decide_eq_true_eq]
        exact ⟨le_trans (Nat.min_le_left _ _) htar, ih _ _⟩

/-! ### Client (base.py lines 58-181)

The ingest-service client.  Parsed JSON payloads are modelled structurally
(only the fields the source reads); `UUID(x)` parsing is abstracted to the
raw string, which no claim inspects.
-/

/-- `Error` dataclass (base.py lines 16-18). -/
structure Error where
  message : String
  deriving DecidableEq

/-- `ClientError` (base.py lines 58-64): status code plus message list. -/
structure ClientError where
  status_code : Nat
  errors : List Error
  deriving DecidableEq

/-- `requests.Response.ok`: true iff `raise_for_status` would not raise,
i.e. iff the status is outside 400-599. -/
def respOk (status : Nat) : Bool :=
  !raisesForStatus status

/-- `Client.check` (base.py lines 85-93), with the response abstracted to its
status and the message list parsed from the body's `errors` array (read only
in the 4xx branch): returns the `ClientError` raised, or `none` when the
response is ok. -/
def Client.check (status : Nat) (bodyMessages : List String) : Option ClientError :=
  if respOk status then
    none
  else if 400 ≤ status ∧ status < 500 then
    some ⟨status, bodyMessages.map Error.mk⟩
  else
    some ⟨status, [Error.mk "Internal server error"]⟩

/-- C8, counterexample: a 304 response is not a 2xx success, yet
`Client.check` raises nothing, because `requests`' `response.ok` is
`status < 400`, not `2xx` — so "raises iff not a success" fails at 304. -/
theorem check_304_counterexample :
    Client.check 304 ["x"] = none ∧ ¬(200 ≤ 304 ∧ 304 < 300) := by
  exact ⟨by decide, by decide⟩

/-- C8 (amended): `Client.check` raises iff the status is in 400-599 (the
range `requests`' `response.ok`/`raise_for_status` treats as an error): for
4xx the error carries the messages parsed from the body's structured `errors`
array, for 5xx (500-599) the single generic message `Internal server error`;
2xx — and also 3xx and ≥ 600 — raise nothing. -/
theorem check_raises_iff (status : Nat) (msgs : List String) :
    ((Client.check status msgs).isSome ↔ (400 ≤ status ∧ status < 600)) ∧
    (400 ≤ status → status < 500 →
      Client.check status msgs = some ⟨status, msgs.map Error.mk⟩) ∧
    (500 ≤ status → status < 600 →
      Client.check status msgs = some ⟨status, [Error.mk "Internal server error"]⟩) ∧
    (status < 400 ∨ 600 ≤ status → Client.check status msgs = none) := by
  refine ⟨?_, ?_, ?_, ?_⟩
  · unfold Client.check respOk raisesForStatus
    by_cases h : 400 ≤ status ∧ status < 600
    · rw [if_neg (by simp [h])]
      split <;> simp [h]
    · rw [if_pos (by simp; omega)]
      simp [h]
  · intro h4 h5
    unfold Client.check respOk raisesForStatus
    rw [if_neg (by simp; omega), if_pos ⟨h4, h5⟩]
  · intro h5 h6
    unfold Client.check respOk raisesForStatus
    rw [if_neg (by simp; omega), if_neg (by omega)]
  · intro h
    unfold Client.check respOk raisesForStatus
    rw [if_pos (by simp; omega)]

/-- Witness for C8's amended theorem: a 422 carries the parsed body messages,
a 503 the generic message. -/
theorem check_raises_iff_witness :
    Client.check 422 ["file too large"] = some ⟨422, [Error.mk "file too large"]⟩ ∧
    Client.check 503 [] = some ⟨503, [Error.mk "Internal server error"]⟩ := by
  constructor
  · exact (check_raises_iff 422 ["file too large"]).2.1 (by decide) (by decide)
  · exact (check_raises_iff 503 []).2.2.1 (by decide) (by decide)

/-- `GoogleDriveUpload` dataclass (base.py lines 21-23). -/
structure GoogleDriveUpload where
  url : String
  deriving DecidableEq

/-- The `upload` object of an ingest-service response, as the source reads it
(base.py lines 102-111): a `type` tag plus the fields each branch accesses. -/
structure UploadJson where
  type : String
  part_size : Nat
  parts : List S3UploadPart
  url : String
  deriving DecidableEq

/-- The ingest-service response payload, restricted to the keys
`Client.ingest_response` reads (base.py lines 95-126); `errors` is the list
of `message` strings (absent or empty both model as `[]`, which Python's
truthiness test treats alike). -/
structure IngestJson where
  id : String
  document_id : String
  state : String
  upload : Option UploadJson
  upload_url : Option String
  errors : List String
  deriving DecidableEq

/-- The `Union[S3Upload, GoogleDriveUpload]` of `IngestResponse.upload`
(base.py line 54). -/
inductive UploadValue
  | s3 (v : S3Upload)
  | gdrive (v : GoogleDriveUpload)
  deriving DecidableEq

/-- `IngestResponse` dataclass (base.py lines 49-55), with the `UUID` fields
abstracted to their raw strings. -/
structure IngestResponse where
  id : String
  document_id : String
  state : String
  upload : Option UploadValue
  errors : List Error
  deriving DecidableEq

/-- The `RuntimeError("Unknown upload type", type)` of base.py line 113. -/
inductive IngestParseError
  | unknownUploadType (type : String)
  deriving DecidableEq

/-- `Client.ingest_response` (base.py lines 95-126). -/
def Client.ingest_response (d : IngestJson) : Except IngestParseError IngestResponse :=
  match d.upload with
  | none =>
    match d.upload_url with
    | some u =>
      .ok ⟨d.id, d.document_id, d.state, some (.gdrive ⟨u⟩), d.errors.map Error.mk⟩
    | none =>
      .ok ⟨d.id, d.document_id, d.state, none, d.errors.map Error.mk⟩
  | some up =>
    if up.type = "s3_multipart" then
      .ok ⟨d.id, d.document_id, d.state, some (.s3 ⟨up.part_size, up.parts⟩),
        d.errors.map Error.mk⟩
    else if up.type = "google_drive_resumable" then
      .ok ⟨d.id, d.document_id, d.state, some (.gdrive ⟨up.url⟩),
        d.errors.map Error.mk⟩
    else
      .error (.unknownUploadType up.type)

/-- C9: a response whose upload object's type is neither `s3_multipart` nor
`google_drive_resumable` makes `ingest_response` raise an error identifying
the unknown type — it never returns a descriptor with the upload ignored. -/
theorem ingest_response_unknown_type (d : IngestJson) (up : UploadJson)
    (hup : d.upload = some up)
    (h1 : up.type ≠ "s3_multipart") (h2 : up.type ≠ "google_drive_resumable") :
    Client.ingest_response d = .error (.unknownUploadType up.type) ∧
    ∀ resp, Client.ingest_response d ≠ .ok resp := by
  have hmain : Client.ingest_response d = .error (.unknownUploadType up.type) := by
    simp [Client.ingest_response, hup, h1, h2]
  exact ⟨hmain, fun resp hresp => by rw [hmain] at hresp; exact Except.noConfusion hresp⟩

/-- Witness for C9 at a concrete payload with upload type `ftp`. -/
theorem ingest_response_unknown_type_witness :
    Client.ingest_response
        ⟨"i", "d", "created", some ⟨"ftp", 0, [], ""⟩, none, []⟩ =
      .error (.unknownUploadType "ftp") := by
  exact (ingest_response_unknown_type
    ⟨"i", "d", "created", some ⟨"ftp", 0, [], ""⟩, none, []⟩
    ⟨"ftp", 0, [], ""⟩ rfl (by decide) (by decide)).1

/-! ### Service URL formation (base.py lines 75-78, 131-134, 150-153, 176-178)

The source builds every ingest-service URL with
`urljoin(self.base_url, "/v1/tiles/...")`.  Because the second argument is an
absolute path, RFC 3986 (and Python's `urllib.parse.urljoin`) keeps only the
scheme and authority of the base and replaces its whole path.  A base URL is
modelled parsed into scheme, host (netloc) and path; queries and fragments
are not used by the source. -/

/-- A parsed absolute URL: `scheme://host{path}`. -/
structure UrlParts where
  scheme : String
  host : String
  path : String
  deriving DecidableEq

/-- `base_url.rstrip("/")` (base.py line 78): stripping trailing slashes from
a URL with a nonempty authority only affects its path component. -/
def rstripSlashes (p : UrlParts) : UrlParts :=
  ⟨p.scheme, p.host, p.path.dropRightWhile (· == '/')⟩

/-- `urllib.parse.urljoin(base, ref)` for a reference that is an absolute
path: the result keeps the base's scheme and authority and takes the
reference's path (RFC 3986 §5.3). -/
def urljoinAbsPath (base : UrlParts) (absPath : String) : String :=
  base.scheme ++ "://" ++ base.host ++ absPath

/-- `Client.__init__` (base.py lines 75-78): default base URL, or the given
one with trailing slashes stripped. -/
def Client.mkBaseUrl (base_url : Option UrlParts) : UrlParts :=
  match base_url with
  | none => ⟨"https", "service.maptiler.com", ""⟩
  | some b => rstripSlashes b

/-- `Client.create_ingest`'s URL (base.py lines 131-134). -/
def createIngestUrl (c : UrlParts) (document_id : Option String) : String :=
  match document_id with
  | none => urljoinAbsPath c "/v1/tiles/ingest"
  | some d => urljoinAbsPath c ("/v1/tiles/" ++ d ++ "/ingest")

/-- `Client.ingest`'s polling URL (base.py lines 150-153). -/
def ingestStatusUrl (c : UrlParts) (ingest_id : String) : String :=
  urljoinAbsPath c ("/v1/tiles/ingest/" ++ ingest_id)

/-- `Client.process_ingest`'s URL (base.py lines 176-178). -/
def processIngestUrl (c : UrlParts) (ingest_id : String) : String :=
  urljoinAbsPath c ("/v1/tiles/ingest/" ++ ingest_id ++ "/process")

/-- C10: for every base URL, the createIngest, status-poll and finalize URLs
are the base's scheme and host followed directly by the absolute
`/v1/tiles/...` path — any path prefix of the base URL is discarded, and only
its (trailing-slash-stripped) scheme and host are used; with no base URL the
default host `service.maptiler.com` is used. -/
theorem service_urls_ignore_base_path (b : UrlParts) (docId ingestId : String) :
    createIngestUrl (Client.mkBaseUrl (some b)) none =
      b.scheme ++ "://" ++ b.host ++ "/v1/tiles/ingest" ∧
    createIngestUrl (Client.mkBaseUrl (some b)) (some docId) =
      b.scheme ++ "://" ++ b.host ++ "/v1/tiles/" ++ docId ++ "/ingest" ∧
    ingestStatusUrl (Client.mkBaseUrl (some b)) ingestId =
      b.scheme ++ "://" ++ b.host ++ "/v1/tiles/ingest/" ++ ingestId ∧
    processIngestUrl (Client.mkBaseUrl (some b)) ingestId =
      b.scheme ++ "://" ++ b.host ++ "/v1/tiles/ingest/" ++ ingestId ++ "/process" ∧
    createIngestUrl (Client.mkBaseUrl none) none =
      "https://service.maptiler.com/v1/tiles/ingest" := by
  refine ⟨?_, ?_, ?_, ?_, rfl⟩ <;>
    simp [createIngestUrl, ingestStatusUrl, processIngestUrl, urljoinAbsPath,
      Client.mkBaseUrl, rstripSlashes, String.append_assoc]
